import Mathlib

/-!
# Verification of the loom-api-js builder/validation layer

Shallow embedding of the model/builder classes (`Role`, `RoleBuilder`,
`AccessCheck`, `AccessCheckBuilder`) and of the API wrapper functions
(`DataApi`, `LinkingApi`) of the loom-api-js repository.

JavaScript conventions are embedded as follows:
* a method that may `throw` becomes a function into `Except String _`,
  the error carrying the `Error` message; a `throw` happens before any
  field assignment in every setter, so the error branch returns no
  updated builder state (the caller's object is unchanged);
* `undefined` / `null` / strings / numbers passed to a setter are the
  inductive `JSVal`;
* an optional object field that may be absent is an `Option`;
* JS truthiness of a string-typed field (`!this.organizationId`) is
  `jsTruthyStr`: `undefined` and the empty string are falsy.
-/

namespace LoomApi

/-- JavaScript values that can reach the builder setters: `undefined`,
`null`, a string, or a non-string primitive (represented by a number). -/
inductive JSVal where
  | undef
  | null
  | str (s : String)
  | num (n : Int)
  deriving DecidableEq, Repr

/-- `LangUtils.isDefined`: the value is neither `undefined` nor `null`. -/
def isDefined : JSVal → Bool
  | .undef => false
  | .null => false
  | _ => true

/-- A string of length 0 (`value.length === 0` on its characters). -/
def strEmpty (s : String) : Bool :=
  s.data.isEmpty

/-- `LangUtils.isEmptyString`: the value is a string of length 0. -/
def isEmptyString : JSVal → Bool
  | .str s => strEmpty s
  | _ => false

/-- `LangUtils.isNonEmptyString`: the value is a string of positive length. -/
def isNonEmptyString : JSVal → Bool
  | .str s => !strEmpty s
  | _ => false

/-- The string content of a `JSVal`; only used on values known to be
non-empty strings. -/
def jsAsString : JSVal → String
  | .str s => s
  | _ => ""

/-- A hexadecimal digit, either case. -/
def isHexDigit (c : Char) : Bool :=
  c.isDigit || (('a' ≤ c && c ≤ 'f') || ('A' ≤ c && c ≤ 'F'))

/-- Split a character list at every dash, keeping empty groups (the
semantics of `String.split` on a one-character separator). -/
def splitDash : List Char → List (List Char)
  | [] => [[]]
  | c :: cs =>
    match splitDash cs with
    | [] => [[c]]
    | g :: gs => if c = '-' then [] :: g :: gs else (c :: g) :: gs

/-- Modelled from the spec: `ValidationUtils.isValidUUID` (its source file is
not in the repository snapshot; the spec and the setters' error messages say
"must be a valid UUID"). A valid UUID is five groups of hex digits of
lengths 8-4-4-4-12 joined by dashes. -/
def isValidUUID (s : String) : Bool :=
  let parts := splitDash s.data
  parts.map List.length == [8, 4, 4, 4, 12] &&
    parts.all (fun p => p.all isHexDigit)

/-- `isValidUUID` lifted to `JSVal`: a non-string never validates. -/
def isValidUUIDVal : JSVal → Bool
  | .str s => isValidUUID s
  | _ => false

/-- JS truthiness of a possibly-unset string field: `undefined` and the
empty string are falsy, every other string is truthy. -/
def jsTruthyStr : Option String → Bool
  | none => false
  | some s => !strEmpty s

end LoomApi

namespace LoomApi

/-! ## Principal (modelled from the spec)

The `Principal` class and `PrincipalBuilder` are imported by `Role` but
their source file is not in the repository snapshot. Modelled from the
spec: "small immutable model/builder classes representing domain objects
(Role, Principal, AccessCheck) ... each following the same Builder
pattern: mutable setter chain → validated immutable object".  A Principal
carries a principal type (an enum constant) and a non-empty string id. -/

/-- Modelled from the spec: the `PrincipalTypes` enum constants. -/
def principalTypes : List String := ["ADMIN", "APP", "ORGANIZATION", "ROLE", "USER"]

/-- Modelled from the spec: an immutable `Principal` value object. -/
structure Principal where
  type : String
  id : String
  deriving DecidableEq, Repr, Hashable

/-- Modelled from the spec: a `Principal` is valid when its type is a
`PrincipalTypes` constant and its id is a non-empty string. -/
def isValidPrincipal (p : Principal) : Bool :=
  principalTypes.contains p.type && !strEmpty p.id

/-- Modelled from the spec: the `PrincipalBuilder` mutable state. -/
structure PrincipalBuilder where
  type : Option String := none
  id : Option String := none
  deriving DecidableEq, Repr

/-- Modelled from the spec: `PrincipalBuilder.setType`, validated by
membership in the `PrincipalTypes` enum. -/
def PrincipalBuilder.setType (b : PrincipalBuilder) (t : String) :
    Except String PrincipalBuilder :=
  if principalTypes.contains t then .ok { b with type := some t }
  else .error "invalid parameter: \"type\" must be a valid PrincipalType"

/-- Modelled from the spec: `PrincipalBuilder.setId`, validated by
`isNonEmptyString`. -/
def PrincipalBuilder.setId (b : PrincipalBuilder) (i : String) :
    Except String PrincipalBuilder :=
  if !strEmpty i then .ok { b with id := some i }
  else .error "invalid parameter: \"id\" must be a non-empty string"

/-- Modelled from the spec: `PrincipalBuilder.build`, failing fast when a
required property is absent. -/
def PrincipalBuilder.build (b : PrincipalBuilder) : Except String Principal :=
  match b.type, b.id with
  | none, _ => .error "missing property: \"type\" is a required property"
  | _, none => .error "missing property: \"id\" is a required property"
  | some t, some i => .ok ⟨t, i⟩

end LoomApi

namespace LoomApi

/-! ## Role and RoleBuilder (src/unnamed/part_003) -/

/-- The `@class` constant attached to every serialized Role. -/
def ROLE_CLASS_PACKAGE : String := "com.openlattice.organization.roles.Role"

/-- The `Role` class: fields assigned by the constructor.  The constant
`this[AT_CLASS] = ROLE_CLASS_PACKAGE` tag is represented only in the
serialized `RoleObject`, since it never varies. -/
structure Role where
  organizationId : String
  principal : Principal
  title : String
  description : Option String := none
  id : Option String := none
  aclKey : Option (List String) := none
  deriving DecidableEq, Repr, Hashable

/-- The `Role` constructor: required properties are copied; `description`
is set only when defined; when `id` is defined, `aclKey` is set to
`[organizationId, id]` and `id` is copied. -/
def roleCtor (description id : Option String) (organizationId : String)
    (principal : Principal) (title : String) : Role :=
  { organizationId := organizationId
    principal := principal
    title := title
    description := description
    id := id
    aclKey := id.map fun i => [organizationId, i] }

/-- The plain-object form returned by `Role.toObject` (and, as an
immutable map with the same entries, by `Role.toImmutable`). -/
structure RoleObject where
  atClass : String
  organizationId : String
  principal : Principal
  title : String
  description : Option String := none
  id : Option String := none
  aclKey : Option (List String) := none
  deriving DecidableEq, Repr, Hashable

/-- `Role.toObject`: required properties plus the class tag; `description`
only when defined; when `id` is defined, `aclKey` is recomputed as
`[this.organizationId, this.id]` and `id` is copied. -/
def Role.toObject (r : Role) : RoleObject :=
  { atClass := ROLE_CLASS_PACKAGE
    organizationId := r.organizationId
    principal := r.principal
    title := r.title
    description := r.description
    id := r.id
    aclKey := r.id.map fun i => [r.organizationId, i] }

/-- `Role.toImmutable` is `fromJS(this.toObject())`: an immutable map with
exactly the entries of `toObject`, represented by the same `RoleObject`. -/
def Role.toImmutable (r : Role) : RoleObject :=
  r.toObject

/-- `Role.valueOf` is `this.toImmutable().hashCode()`; the Immutable.js
hash is modelled as a structural hash of the serialized object. -/
def Role.valueOf (r : Role) : UInt64 :=
  hash r.toImmutable

/-- State-passing form of `Role.toObject`: the method reads `this` and
assigns no field, so the post-state is the receiver. -/
def Role.toObjectM (r : Role) : RoleObject × Role :=
  (r.toObject, r)

/-- State-passing form of `Role.toImmutable`: no field is assigned. -/
def Role.toImmutableM (r : Role) : RoleObject × Role :=
  (r.toImmutable, r)

/-- State-passing form of `Role.valueOf`: no field is assigned. -/
def Role.valueOfM (r : Role) : UInt64 × Role :=
  (r.valueOf, r)

/-- The `RoleBuilder` mutable state: every field starts unset. -/
structure RoleBuilder where
  description : Option String := none
  id : Option String := none
  organizationId : Option String := none
  principal : Option Principal := none
  title : Option String := none
  deriving DecidableEq, Repr

/-- `RoleBuilder.setDescription`: absent or empty-string input is ignored;
a defined non-empty value that is not a non-empty string throws. -/
def RoleBuilder.setDescription (b : RoleBuilder) (description : JSVal) :
    Except String RoleBuilder :=
  if !isDefined description || isEmptyString description then .ok b
  else if !isNonEmptyString description then
    .error "invalid parameter: \"description\" must be a non-empty string"
  else .ok { b with description := some (jsAsString description) }

/-- `RoleBuilder.setId`: absent or empty-string input is ignored; a
defined non-empty value that is not a valid UUID throws. -/
def RoleBuilder.setId (b : RoleBuilder) (id : JSVal) :
    Except String RoleBuilder :=
  if !isDefined id || isEmptyString id then .ok b
  else if !isValidUUIDVal id then
    .error "invalid parameter: \"id\" must be a valid UUID"
  else .ok { b with id := some (jsAsString id) }

/-- `RoleBuilder.setOrganizationId`: any input that is not a valid UUID
throws. -/
def RoleBuilder.setOrganizationId (b : RoleBuilder) (organizationId : JSVal) :
    Except String RoleBuilder :=
  if !isValidUUIDVal organizationId then
    .error "invalid parameter: \"organizationId\" must be a valid UUID"
  else .ok { b with organizationId := some (jsAsString organizationId) }

/-- `RoleBuilder.setPrincipal`: the input is rebuilt through
`(new PrincipalBuilder(principal)).build()`, which validates it (the
`PrincipalBuilder` is modelled from the spec, see above). -/
def RoleBuilder.setPrincipal (b : RoleBuilder) (principal : Principal) :
    Except String RoleBuilder :=
  Except.bind (PrincipalBuilder.setType {} principal.type) fun pb =>
  Except.bind (pb.setId principal.id) fun pb =>
  Except.bind pb.build fun p =>
  .ok { b with principal := some p }

/-- `RoleBuilder.setTitle`: any input that is not a non-empty string
throws. -/
def RoleBuilder.setTitle (b : RoleBuilder) (title : JSVal) :
    Except String RoleBuilder :=
  if !isNonEmptyString title then
    .error "invalid parameter: \"title\" must be a non-empty string"
  else .ok { b with title := some (jsAsString title) }

/-- `RoleBuilder.build`: JS-truthiness checks on the required fields, each
throwing a message naming the missing property, then the `Role`
constructor on the builder's fields. -/
def RoleBuilder.build (b : RoleBuilder) : Except String Role :=
  if !jsTruthyStr b.organizationId then
    .error "missing property: \"organizationId\" is a required property"
  else if b.principal.isNone then
    .error "missing property: \"principal\" is a required property"
  else if !jsTruthyStr b.title then
    .error "missing property: \"title\" is a required property"
  else
    .ok (roleCtor b.description b.id (b.organizationId.getD "")
      (b.principal.getD ⟨"", ""⟩) (b.title.getD ""))

/-- Embed an optional serialized field back into the JS value passed to a
setter by the `RoleBuilder(value)` constructor: an absent field reads as
`undefined`. -/
def optToJS : Option String → JSVal
  | none => .undef
  | some s => .str s

/-- The `RoleBuilder(value)` constructor on a defined plain object: it
chains `setDescription`, `setId`, `setOrganizationId`, `setPrincipal`,
`setTitle` on the object's fields, in that order. -/
def roleBuilderFromObject (o : RoleObject) : Except String RoleBuilder :=
  Except.bind (RoleBuilder.setDescription {} (optToJS o.description)) fun b =>
  Except.bind (b.setId (optToJS o.id)) fun b =>
  Except.bind (b.setOrganizationId (.str o.organizationId)) fun b =>
  Except.bind (b.setPrincipal o.principal) fun b =>
  b.setTitle (.str o.title)

/-- Builder states reachable through the validated setters: every field
that is set holds a value its setter accepted. -/
def builderWF (b : RoleBuilder) : Bool :=
  b.description.all (fun d => !strEmpty d) &&
  b.id.all isValidUUID &&
  b.organizationId.all isValidUUID &&
  b.title.all (fun t => !strEmpty t) &&
  b.principal.all isValidPrincipal

/-- The builder state observed after a setter call that may have thrown:
on a throw the exception propagates and the caller's builder is the
unchanged receiver. -/
def afterCall {α : Type} (b : α) (r : Except String α) : α :=
  match r with
  | .ok b2 => b2
  | .error _ => b

end LoomApi

namespace LoomApi

/-! ## AccessCheck and AccessCheckBuilder (src/unnamed/part_001) -/

/-- Modelled from the spec: the `Permission` enum constants
(`PermissionTypes`; its source file is not in the repository snapshot,
the spec calls the field a "set of Permission enum"). -/
def permissionTypes : List String := ["ALTER", "DISCOVER", "LINK", "OWNER", "READ", "WRITE"]

/-- `LangUtils.isEmptyArray`: an array of length 0. -/
def isEmptyArray (xs : List String) : Bool :=
  xs.isEmpty

/-- Modelled from the spec: `ValidationUtils.isValidUuidArray` (its source
file is not in the repository snapshot; the setter's error message says
"must be a non-empty array of valid UUIDs"). -/
def isValidUuidArray (xs : List String) : Bool :=
  !xs.isEmpty && xs.all isValidUUID

/-- Modelled from the spec: `ValidationUtils.isValidPermissionArray` (its
source file is not in the repository snapshot; the setter's error message
says "must be a non-empty array of valid Permissions"). -/
def isValidPermissionArray (xs : List String) : Bool :=
  !xs.isEmpty && xs.all permissionTypes.contains

/-- The `AccessCheck` class: the two fields assigned by its constructor. -/
structure AccessCheck where
  aclKey : List String
  permissions : List String
  deriving DecidableEq, Repr

/-- `Immutable.Set().withMutations(add each).toJS()`: insert each element
in order, skipping those already present. -/
def dedupe (xs : List String) : List String :=
  xs.foldl (fun acc x => if x ∈ acc then acc else acc ++ [x]) []

/-- The `AccessCheckBuilder` mutable state: both fields start unset. -/
structure AccessCheckBuilder where
  aclKey : Option (List String) := none
  permissions : Option (List String) := none
  deriving DecidableEq, Repr

/-- `AccessCheckBuilder.setAclKey`: `undefined` (`none`) or an empty array
is ignored; otherwise the input must be a non-empty array of valid UUIDs. -/
def AccessCheckBuilder.setAclKey (b : AccessCheckBuilder)
    (aclKey : Option (List String)) : Except String AccessCheckBuilder :=
  match aclKey with
  | none => .ok b
  | some ks =>
    if isEmptyArray ks then .ok b
    else if !isValidUuidArray ks then
      .error "invalid parameter: aclKey must be a non-empty array of valid UUIDs"
    else .ok { b with aclKey := some ks }

/-- `AccessCheckBuilder.setPermissions`: `undefined` (`none`) or an empty
array is ignored; otherwise the input must be a non-empty array of valid
Permissions, and is stored deduplicated through an `Immutable.Set`. -/
def AccessCheckBuilder.setPermissions (b : AccessCheckBuilder)
    (permissions : Option (List String)) : Except String AccessCheckBuilder :=
  match permissions with
  | none => .ok b
  | some ps =>
    if isEmptyArray ps then .ok b
    else if !isValidPermissionArray ps then
      .error "invalid parameter: permissions must be a non-empty array of valid Permissions"
    else .ok { b with permissions := some (dedupe ps) }

/-- `AccessCheckBuilder.build`: an unset `aclKey` or `permissions` is
defaulted to the empty array; the build itself never throws.  It is given
the `Except` type shared by the other builds so that the failure claimed
for it is statable. -/
def AccessCheckBuilder.build (b : AccessCheckBuilder) : Except String AccessCheck :=
  .ok { aclKey := b.aclKey.getD [], permissions := b.permissions.getD [] }

end LoomApi

namespace LoomApi

/-! ## API wrappers (src/src/DataApi.js and src/unnamed/part_000, LinkingApi) -/

/-- The observable outcome of an API wrapper call: either a rejected
Promise carrying an error message (no HTTP request is made), or an HTTP
request with a method, a URL path, and query parameters. -/
inductive ApiOutcome where
  | reject (msg : String)
  | request (method : String) (url : String) (query : List (String × String))
  deriving DecidableEq, Repr

/-- An `entityTypeFqn` object literal: a namespace and a name. -/
structure FqnObject where
  nspace : String
  name : String
  deriving DecidableEq, Repr

/-- Modelled from the spec: `FullyQualifiedName.isValidFqnObjectLiteral`
(its source file is not in the repository snapshot; the spec says a
FullyQualifiedName is "valid iff both non-empty strings"). -/
def isValidFqnObjectLiteral (fqn : FqnObject) : Bool :=
  !strEmpty fqn.nspace && !strEmpty fqn.name

/-- Modelled from the spec: the validation predicate of an array-of-FQNs
parameter under the spec's data model ("every function validates
parameters"; FullyQualifiedName valid iff both strings non-empty): a
non-empty array of valid FQN object literals. -/
def isValidFqnArray (xs : List FqnObject) : Bool :=
  !xs.isEmpty && xs.all isValidFqnObjectLiteral

/-- `DataApi.getAllEntitiesOfType`: validates the FQN, then
`GET /entitydata/{namespace}/{name}`. -/
def getAllEntitiesOfType (entityTypeFqn : FqnObject) : ApiOutcome :=
  if !isValidFqnObjectLiteral entityTypeFqn then
    .reject "invalid parameter: entityTypeFqn must be a valid object literal"
  else
    .request "GET" ("/entitydata/" ++ entityTypeFqn.nspace ++ "/" ++ entityTypeFqn.name) []

/-- `DataApi.getAllEntitiesOfTypes`: no validation;
`PUT /entitydata/multiple` with the array as payload. -/
def getAllEntitiesOfTypes (entityTypeFqns : List FqnObject) : ApiOutcome :=
  .request "PUT" "/entitydata/multiple" []

/-- `DataApi.getAllEntitiesOfTypeInSet`, exactly as written in the source:
the FQN check, then `if (isNonEmptyString(entitySetName))` rejects — the
condition is not negated in the code — then
`GET /entitydata/{namespace}/{name}/{entitySetName}`. -/
def getAllEntitiesOfTypeInSet (entityTypeFqn : FqnObject)
    (entitySetName : String) : ApiOutcome :=
  if !isValidFqnObjectLiteral entityTypeFqn then
    .reject "invalid parameter: entityTypeFqn must be a valid object literal"
  else if isNonEmptyString (.str entitySetName) then
    .reject "invalid parameter: entitySetName must be a non-empty string"
  else
    .request "GET"
      ("/entitydata/" ++ entityTypeFqn.nspace ++ "/" ++ entityTypeFqn.name
        ++ "/" ++ entitySetName) []

/-- `DataApi.downloadAllEntitiesOfTypeInSet`, exactly as written in the
source: same checks as `getAllEntitiesOfTypeInSet` (including the
un-negated `isNonEmptyString` condition), with a `fileType` query
parameter on the request. -/
def downloadAllEntitiesOfTypeInSet (entityTypeFqn : FqnObject)
    (entitySetName : String) (fileType : String) : ApiOutcome :=
  if !isValidFqnObjectLiteral entityTypeFqn then
    .reject "invalid parameter: entityTypeFqn must be a valid object literal"
  else if isNonEmptyString (.str entitySetName) then
    .reject "invalid parameter: entitySetName must be a non-empty string"
  else
    .request "GET"
      ("/entitydata/" ++ entityTypeFqn.nspace ++ "/" ++ entityTypeFqn.name
        ++ "/" ++ entitySetName) [("fileType", fileType)]

/-- `DataApi.createEntity`: no validation; `POST /entitydata` with the
request object as payload. -/
def createEntity (createEntityRequest : JSVal) : ApiOutcome :=
  .request "POST" "/entitydata" []

/-- `LinkingApi.linkEntities`: validates `syncId` and `entitySetId` as
UUIDs and `entityId` as a non-empty string, then
`POST /linking/set/{syncId}/{entitySetId}/{entityId}`. -/
def linkEntities (syncId entitySetId entityId : String) : ApiOutcome :=
  if !isValidUUID syncId then
    .reject "invalid parameter: syncId must be a valid UUID"
  else if !isValidUUID entitySetId then
    .reject "invalid parameter: entitySetId must be a valid UUID"
  else if !isNonEmptyString (.str entityId) then
    .reject "invalid parameter: entityId must be a non-empty string"
  else
    .request "POST" ("/linking/set/" ++ syncId ++ "/" ++ entitySetId ++ "/" ++ entityId) []

end LoomApi

namespace LoomApi

/-! ## Shared fixtures and helper lemmas -/

/-- A concrete valid UUID (the mock organization id from the source's
testing section). -/
def uuidA : String := "a77a0f9a-0e6f-4a98-a169-4d1e122b39a3"

/-- A second concrete valid UUID (the mock role id from the source's
testing section). -/
def uuidB : String := "66da9306-3d1d-49d7-a8ee-8515c9c28434"

/-- The mock principal from the source's testing section. -/
def principalMock : Principal := ⟨"ROLE", "MockOrgRolePrincipalId"⟩

theorem isValidUUID_not_empty {s : String} (h : isValidUUID s = true) :
    strEmpty s = false := by
  cases hs : s.data with
  | cons c cs => simp [strEmpty, hs]
  | nil =>
    unfold isValidUUID at h
    rw [hs] at h
    exact absurd h (by decide)

theorem mem_foldl_insert (xs : List String) :
    ∀ (acc : List String) (y : String),
      (y ∈ xs.foldl (fun acc x => if x ∈ acc then acc else acc ++ [x]) acc) ↔
        y ∈ acc ∨ y ∈ xs := by
  induction xs with
  | nil => intro acc y; simp
  | cons x xs ih =>
    intro acc y
    simp only [List.foldl_cons]
    by_cases hx : x ∈ acc
    · rw [if_pos hx, ih]
      simp only [List.mem_cons]
      constructor
      · rintro (h | h)
        · exact Or.inl h
        · exact Or.inr (Or.inr h)
      · rintro (h | rfl | h)
        · exact Or.inl h
        · exact Or.inl hx
        · exact Or.inr h
    · rw [if_neg hx, ih]
      simp only [List.mem_append, List.mem_singleton, List.mem_cons]
      tauto

theorem nodup_foldl_insert (xs : List String) :
    ∀ acc : List String, acc.Nodup →
      (xs.foldl (fun acc x => if x ∈ acc then acc else acc ++ [x]) acc).Nodup := by
  induction xs with
  | nil => intro acc h; simpa using h
  | cons x xs ih =>
    intro acc h
    simp only [List.foldl_cons]
    by_cases hx : x ∈ acc
    · rw [if_pos hx]; exact ih _ h
    · rw [if_neg hx]
      refine ih _ ?_
      rw [List.nodup_append]
      exact ⟨h, List.nodup_singleton x, by simpa [List.disjoint_singleton] using hx⟩

theorem mem_dedupe (xs : List String) (y : String) : y ∈ dedupe xs ↔ y ∈ xs := by
  unfold dedupe
  rw [mem_foldl_insert]
  simp

theorem nodup_dedupe (xs : List String) : (dedupe xs).Nodup :=
  nodup_foldl_insert xs [] List.nodup_nil

end LoomApi

namespace LoomApi

/-! ## The claims -/

/-- **C1**: `RoleBuilder.build()` succeeds and returns a `Role` carrying
the set values when `organizationId`, `principal` and `title` have all
been set with valid values; when one of them has not been set, it throws
an `Error` whose message names the missing required property. -/
theorem roleBuilder_build_correct :
    (∀ (b : RoleBuilder) (o : String) (p : Principal) (t : String),
      b.organizationId = some o → isValidUUID o = true →
      b.principal = some p →
      b.title = some t → isNonEmptyString (.str t) = true →
      ∃ r : Role, b.build = .ok r ∧ r.organizationId = o ∧ r.principal = p ∧
        r.title = t ∧ r.description = b.description ∧ r.id = b.id) ∧
    (∀ b : RoleBuilder, b.organizationId = none →
      b.build = .error "missing property: \"organizationId\" is a required property") ∧
    (∀ b : RoleBuilder, jsTruthyStr b.organizationId = true → b.principal = none →
      b.build = .error "missing property: \"principal\" is a required property") ∧
    (∀ b : RoleBuilder, jsTruthyStr b.organizationId = true → b.principal.isSome = true →
      b.title = none →
      b.build = .error "missing property: \"title\" is a required property") := by
  refine ⟨?_, ?_, ?_, ?_⟩
  · intro b o p t ho hov hp ht htv
    have ho2 : strEmpty o = false := isValidUUID_not_empty hov
    have ht2 : strEmpty t = false := by simpa [isNonEmptyString] using htv
    refine ⟨roleCtor b.description b.id o p t, ?_, rfl, rfl, rfl, rfl, rfl⟩
    simp [RoleBuilder.build, ho, hp, ht, jsTruthyStr, ho2, ht2]
  · intro b ho
    simp [RoleBuilder.build, ho, jsTruthyStr]
  · intro b ho hp
    simp [RoleBuilder.build, ho, hp]
  · intro b ho hp ht
    rcases hbp : b.principal with _ | p
    · rw [hbp] at hp; exact absurd hp (by simp)
    · simp [RoleBuilder.build, ho, hbp, ht, show jsTruthyStr none = false from rfl]

/-- Witness for C1: the four cases exercised on concrete builders built
from the source's mock values. -/
theorem roleBuilder_build_correct_witness :
    (∃ r : Role,
      RoleBuilder.build ⟨none, none, some uuidA, some principalMock, some "MockOrgRoleTitle"⟩
        = .ok r ∧ r.organizationId = uuidA ∧ r.principal = principalMock ∧
        r.title = "MockOrgRoleTitle" ∧ r.description = none ∧ r.id = none) ∧
    RoleBuilder.build ⟨none, none, none, some principalMock, some "MockOrgRoleTitle"⟩
      = .error "missing property: \"organizationId\" is a required property" ∧
    RoleBuilder.build ⟨none, none, some uuidA, none, some "MockOrgRoleTitle"⟩
      = .error "missing property: \"principal\" is a required property" ∧
    RoleBuilder.build ⟨none, none, some uuidA, some principalMock, none⟩
      = .error "missing property: \"title\" is a required property" :=
  ⟨roleBuilder_build_correct.1 _ uuidA principalMock "MockOrgRoleTitle"
      rfl (by decide) rfl rfl (by decide),
    roleBuilder_build_correct.2.1 _ rfl,
    roleBuilder_build_correct.2.2.1 _ (by decide) rfl,
    roleBuilder_build_correct.2.2.2 _ (by decide) rfl rfl⟩

/-- **C2**: for a `Role` built by `RoleBuilder.build()`, when an `id` was
set, the `Role` and its `toObject()` both carry
`aclKey = [organizationId, id]` and the `id`; when no `id` was set,
neither carries an `aclKey` or `id` field. -/
theorem role_aclKey_derivation :
    ∀ (b : RoleBuilder) (r : Role), b.build = .ok r →
      (∀ i, b.id = some i →
        r.id = some i ∧ r.aclKey = some [r.organizationId, i] ∧
        r.toObject.id = some i ∧ r.toObject.aclKey = some [r.organizationId, i]) ∧
      (b.id = none →
        r.id = none ∧ r.aclKey = none ∧
        r.toObject.id = none ∧ r.toObject.aclKey = none) := by
  intro b r h
  unfold RoleBuilder.build at h
  by_cases h1 : (!jsTruthyStr b.organizationId) = true
  · rw [if_pos h1] at h; exact absurd h (by simp)
  · rw [if_neg h1] at h
    by_cases h2 : b.principal.isNone = true
    · rw [if_pos h2] at h; exact absurd h (by simp)
    · rw [if_neg h2] at h
      by_cases h3 : (!jsTruthyStr b.title) = true
      · rw [if_pos h3] at h; exact absurd h (by simp)
      · rw [if_neg h3] at h
        rw [Except.ok.injEq] at h
        subst h
        refine ⟨?_, ?_⟩
        · intro i hi
          simp [roleCtor, Role.toObject, hi]
        · intro hi
          simp [roleCtor, Role.toObject, hi]

/-- Witness for C2: both cases exercised on concrete builders built from
the source's mock values. -/
theorem role_aclKey_derivation_witness :
    (roleCtor none (some uuidB) uuidA principalMock "MockOrgRoleTitle").aclKey
        = some [uuidA, uuidB] ∧
    (roleCtor none (some uuidB) uuidA principalMock "MockOrgRoleTitle").toObject.aclKey
        = some [uuidA, uuidB] ∧
    (roleCtor none none uuidA principalMock "MockOrgRoleTitle").aclKey = none ∧
    (roleCtor none none uuidA principalMock "MockOrgRoleTitle").toObject.id = none :=
  have h1 := role_aclKey_derivation
    ⟨none, some uuidB, some uuidA, some principalMock, some "MockOrgRoleTitle"⟩
    (roleCtor none (some uuidB) uuidA principalMock "MockOrgRoleTitle") rfl
  have h2 := role_aclKey_derivation
    ⟨none, none, some uuidA, some principalMock, some "MockOrgRoleTitle"⟩
    (roleCtor none none uuidA principalMock "MockOrgRoleTitle") rfl
  ⟨(h1.1 uuidB rfl).2.1, (h1.1 uuidB rfl).2.2.2, (h2.2 rfl).2.1, (h2.2 rfl).2.2.1⟩

/-- **C3**: `AccessCheckBuilder.setPermissions` on a non-empty array of
valid Permissions followed by `build()` yields an `AccessCheck` whose
permissions contain each distinct input element exactly once, the set
being determined by the input's membership alone. -/
theorem accessCheck_permissions_dedup :
    ∀ (b b2 : AccessCheckBuilder) (ps : List String) (ac : AccessCheck),
      isValidPermissionArray ps = true →
      b.setPermissions (some ps) = .ok b2 →
      b2.build = .ok ac →
      (∀ x, x ∈ ac.permissions ↔ x ∈ ps) ∧ ac.permissions.Nodup ∧
        (∀ x ∈ ps, ac.permissions.count x = 1) := by
  intro b b2 ps ac hv hset hbuild
  have hne : isEmptyArray ps = false := by
    rcases ps with _ | ⟨x, xs⟩
    · exact absurd hv (by decide)
    · rfl
  simp only [AccessCheckBuilder.setPermissions, hne, hv, Bool.not_true,
    Bool.false_eq_true, if_false, Except.ok.injEq] at hset
  subst hset
  unfold AccessCheckBuilder.build at hbuild
  rw [Except.ok.injEq] at hbuild
  subst hbuild
  refine ⟨?_, ?_, ?_⟩
  · intro x
    simpa using mem_dedupe ps x
  · simpa using nodup_dedupe ps
  · intro x hx
    exact List.count_eq_one_of_mem (by simpa using nodup_dedupe ps)
      (by simpa using (mem_dedupe ps x).mpr hx)

/-- Witness for C3: the duplicate-carrying input
`["READ", "WRITE", "READ"]` produces permissions `["READ", "WRITE"]`. -/
theorem accessCheck_permissions_dedup_witness :
    ("READ" ∈ (AccessCheck.mk [] ["READ", "WRITE"]).permissions ↔
        "READ" ∈ ["READ", "WRITE", "READ"]) ∧
    (AccessCheck.mk [] ["READ", "WRITE"]).permissions.Nodup ∧
    (AccessCheck.mk [] ["READ", "WRITE"]).permissions.count "READ" = 1 :=
  have h := accessCheck_permissions_dedup ⟨none, none⟩
    ⟨none, some ["READ", "WRITE"]⟩ ["READ", "WRITE", "READ"]
    (AccessCheck.mk [] ["READ", "WRITE"]) (by decide) rfl rfl
  ⟨h.1 "READ", h.2.1, h.2.2 "READ" (by decide)⟩

/-- Counterexample to **C4**: on a builder with neither `aclKey` nor
`permissions` set, `build()` does not fail — it returns an `AccessCheck`
with both fields defaulted to the empty array. -/
theorem accessCheck_build_no_fail_counterexample :
    AccessCheckBuilder.build ⟨none, none⟩ = .ok ⟨[], []⟩ :=
  rfl

/-- **C4 (amended)**: `AccessCheckBuilder.build()` never fails: a field
not set on the builder is defaulted to the empty array, and the built
`AccessCheck` carries the builder's (possibly defaulted) fields. -/
theorem accessCheck_build_never_fails :
    ∀ b : AccessCheckBuilder,
      b.build = .ok ⟨b.aclKey.getD [], b.permissions.getD []⟩ :=
  fun _ => rfl

/-- **C5**: each predicate-guarded setter, applied to a defined,
non-empty value failing its predicate, throws an `Error` with the
descriptive message and leaves the builder unchanged (the state observed
after the throwing call is the receiver). -/
theorem guarded_setters_throw_on_invalid :
    (∀ (b : RoleBuilder) (v : JSVal),
      isDefined v = true → isEmptyString v = false → isNonEmptyString v = false →
      b.setDescription v
          = .error "invalid parameter: \"description\" must be a non-empty string" ∧
        afterCall b (b.setDescription v) = b) ∧
    (∀ (b : RoleBuilder) (v : JSVal),
      isDefined v = true → isEmptyString v = false → isValidUUIDVal v = false →
      b.setId v = .error "invalid parameter: \"id\" must be a valid UUID" ∧
        afterCall b (b.setId v) = b) ∧
    (∀ (b : RoleBuilder) (v : JSVal),
      isDefined v = true → isEmptyString v = false → isValidUUIDVal v = false →
      b.setOrganizationId v
          = .error "invalid parameter: \"organizationId\" must be a valid UUID" ∧
        afterCall b (b.setOrganizationId v) = b) ∧
    (∀ (b : RoleBuilder) (v : JSVal),
      isDefined v = true → isEmptyString v = false → isNonEmptyString v = false →
      b.setTitle v = .error "invalid parameter: \"title\" must be a non-empty string" ∧
        afterCall b (b.setTitle v) = b) ∧
    (∀ (c : AccessCheckBuilder) (ks : List String),
      isEmptyArray ks = false → isValidUuidArray ks = false →
      c.setAclKey (some ks)
          = .error "invalid parameter: aclKey must be a non-empty array of valid UUIDs" ∧
        afterCall c (c.setAclKey (some ks)) = c) ∧
    (∀ (c : AccessCheckBuilder) (ps : List String),
      isEmptyArray ps = false → isValidPermissionArray ps = false →
      c.setPermissions (some ps)
          = .error "invalid parameter: permissions must be a non-empty array of valid Permissions" ∧
        afterCall c (c.setPermissions (some ps)) = c) := by
  refine ⟨?_, ?_, ?_, ?_, ?_, ?_⟩
  · intro b v h1 h2 h3
    have he : b.setDescription v
        = .error "invalid parameter: \"description\" must be a non-empty string" := by
      simp [RoleBuilder.setDescription, h1, h2, h3]
    exact ⟨he, by rw [he]; rfl⟩
  · intro b v h1 h2 h3
    have he : b.setId v = .error "invalid parameter: \"id\" must be a valid UUID" := by
      simp [RoleBuilder.setId, h1, h2, h3]
    exact ⟨he, by rw [he]; rfl⟩
  · intro b v h1 h2 h3
    have he : b.setOrganizationId v
        = .error "invalid parameter: \"organizationId\" must be a valid UUID" := by
      simp [RoleBuilder.setOrganizationId, h3]
    exact ⟨he, by rw [he]; rfl⟩
  · intro b v h1 h2 h3
    have he : b.setTitle v
        = .error "invalid parameter: \"title\" must be a non-empty string" := by
      simp [RoleBuilder.setTitle, h3]
    exact ⟨he, by rw [he]; rfl⟩
  · intro c ks h1 h2
    have he : c.setAclKey (some ks)
        = .error "invalid parameter: aclKey must be a non-empty array of valid UUIDs" := by
      simp [AccessCheckBuilder.setAclKey, h1, h2]
    exact ⟨he, by rw [he]; rfl⟩
  · intro c ps h1 h2
    have he : c.setPermissions (some ps)
        = .error "invalid parameter: permissions must be a non-empty array of valid Permissions" := by
      simp [AccessCheckBuilder.setPermissions, h1, h2]
    exact ⟨he, by rw [he]; rfl⟩

/-- Witness for C5: every guarded setter exercised on a concrete invalid
input (a number where a string is wanted, a malformed UUID, an invalid
array element). -/
theorem guarded_setters_throw_on_invalid_witness :
    RoleBuilder.setDescription ⟨none, none, none, none, none⟩ (.num 7)
        = .error "invalid parameter: \"description\" must be a non-empty string" ∧
    RoleBuilder.setId ⟨none, none, none, none, none⟩ (.str "not-a-uuid")
        = .error "invalid parameter: \"id\" must be a valid UUID" ∧
    RoleBuilder.setOrganizationId ⟨none, none, none, none, none⟩ (.str "abc")
        = .error "invalid parameter: \"organizationId\" must be a valid UUID" ∧
    RoleBuilder.setTitle ⟨none, none, none, none, none⟩ (.num 7)
        = .error "invalid parameter: \"title\" must be a non-empty string" ∧
    AccessCheckBuilder.setAclKey ⟨none, none⟩ (some ["nope"])
        = .error "invalid parameter: aclKey must be a non-empty array of valid UUIDs" ∧
    AccessCheckBuilder.setPermissions ⟨none, none⟩ (some ["FLY"])
        = .error "invalid parameter: permissions must be a non-empty array of valid Permissions" :=
  ⟨(guarded_setters_throw_on_invalid.1 _ (.num 7) (by decide) (by decide) (by decide)).1,
    (guarded_setters_throw_on_invalid.2.1 _ (.str "not-a-uuid")
      (by decide) (by decide) (by decide)).1,
    (guarded_setters_throw_on_invalid.2.2.1 _ (.str "abc")
      (by decide) (by decide) (by decide)).1,
    (guarded_setters_throw_on_invalid.2.2.2.1 _ (.num 7)
      (by decide) (by decide) (by decide)).1,
    (guarded_setters_throw_on_invalid.2.2.2.2.1 _ ["nope"] (by decide) (by decide)).1,
    (guarded_setters_throw_on_invalid.2.2.2.2.2 _ ["FLY"] (by decide) (by decide)).1⟩

/-- Counterexample to **C6**: `getAllEntitiesOfTypes` and `createEntity`
perform no parameter validation at all — on parameters failing the spec's
validation predicates (an empty FQN array; an `undefined` request) they
still issue the HTTP request instead of returning a rejected Promise. -/
theorem wrappers_skip_validation_counterexample :
    isValidFqnArray [] = false ∧
    getAllEntitiesOfTypes [] = .request "PUT" "/entitydata/multiple" [] ∧
    createEntity .undef = .request "POST" "/entitydata" [] :=
  ⟨rfl, rfl, rfl⟩

/-- **C6 (amended)**: the wrappers that implement validation guards
(`linkEntities`, `getAllEntitiesOfType`) return a rejected Promise with a
descriptive "invalid parameter" message and perform no HTTP request when
a guarded parameter fails its predicate, and issue the request when the
guards pass; `getAllEntitiesOfTypes` and `createEntity` perform no
validation and always issue the HTTP request. -/
theorem api_wrapper_validation_amended :
    (∀ s e i : String, isValidUUID s = false →
      linkEntities s e i = .reject "invalid parameter: syncId must be a valid UUID") ∧
    (∀ s e i : String, isValidUUID s = true → isValidUUID e = false →
      linkEntities s e i = .reject "invalid parameter: entitySetId must be a valid UUID") ∧
    (∀ s e i : String, isValidUUID s = true → isValidUUID e = true → strEmpty i = true →
      linkEntities s e i = .reject "invalid parameter: entityId must be a non-empty string") ∧
    (∀ s e i : String, isValidUUID s = true → isValidUUID e = true → strEmpty i = false →
      linkEntities s e i
        = .request "POST" ("/linking/set/" ++ s ++ "/" ++ e ++ "/" ++ i) []) ∧
    (∀ fqn : FqnObject, isValidFqnObjectLiteral fqn = false →
      getAllEntitiesOfType fqn
        = .reject "invalid parameter: entityTypeFqn must be a valid object literal") ∧
    (∀ fqns : List FqnObject,
      getAllEntitiesOfTypes fqns = .request "PUT" "/entitydata/multiple" []) ∧
    (∀ v : JSVal, createEntity v = .request "POST" "/entitydata" []) := by
  refine ⟨?_, ?_, ?_, ?_, ?_, fun _ => rfl, fun _ => rfl⟩
  · intro s e i h; simp [linkEntities, h]
  · intro s e i h1 h2; simp [linkEntities, h1, h2]
  · intro s e i h1 h2 h3; simp [linkEntities, h1, h2, isNonEmptyString, h3]
  · intro s e i h1 h2 h3; simp [linkEntities, h1, h2, isNonEmptyString, h3]
  · intro fqn h; simp [getAllEntitiesOfType, h]

/-- Witness for C6 (amended): the guard cases of `linkEntities` and
`getAllEntitiesOfType` exercised on concrete parameters. -/
theorem api_wrapper_validation_amended_witness :
    linkEntities "bad" uuidA "e1" = .reject "invalid parameter: syncId must be a valid UUID" ∧
    linkEntities uuidA "bad" "e1"
        = .reject "invalid parameter: entitySetId must be a valid UUID" ∧
    linkEntities uuidA uuidB ""
        = .reject "invalid parameter: entityId must be a non-empty string" ∧
    linkEntities uuidA uuidB "e1"
        = .request "POST" ("/linking/set/" ++ uuidA ++ "/" ++ uuidB ++ "/" ++ "e1") [] ∧
    getAllEntitiesOfType ⟨"", "MyEntity"⟩
        = .reject "invalid parameter: entityTypeFqn must be a valid object literal" :=
  ⟨api_wrapper_validation_amended.1 "bad" uuidA "e1" (by decide),
    api_wrapper_validation_amended.2.1 uuidA "bad" "e1" (by decide) (by decide),
    api_wrapper_validation_amended.2.2.1 uuidA uuidB "" (by decide) (by decide) (by decide),
    api_wrapper_validation_amended.2.2.2.1 uuidA uuidB "e1" (by decide) (by decide) (by decide),
    api_wrapper_validation_amended.2.2.2.2.1 ⟨"", "MyEntity"⟩ (by decide)⟩

/-- **C7**: the `entitySetName` guard of `getAllEntitiesOfTypeInSet` and
`downloadAllEntitiesOfTypeInSet` is inverted in the source: a non-empty
`entitySetName` is rejected with the message saying it "must be a
non-empty string", while an empty `entitySetName` passes the guard and
the HTTP request is issued. -/
theorem dataApi_inSet_validation_inverted :
    getAllEntitiesOfTypeInSet ⟨"LOOM", "MyEntity"⟩ "MyEntityCollection"
        = .reject "invalid parameter: entitySetName must be a non-empty string" ∧
    getAllEntitiesOfTypeInSet ⟨"LOOM", "MyEntity"⟩ ""
        = .request "GET" "/entitydata/LOOM/MyEntity/" [] ∧
    downloadAllEntitiesOfTypeInSet ⟨"LOOM", "MyEntity"⟩ "MyEntityCollection" "json"
        = .reject "invalid parameter: entitySetName must be a non-empty string" ∧
    downloadAllEntitiesOfTypeInSet ⟨"LOOM", "MyEntity"⟩ "" "json"
        = .request "GET" "/entitydata/LOOM/MyEntity/" [("fileType", "json")] := by
  refine ⟨?_, ?_, ?_, ?_⟩ <;> decide

/-- **C8**: the object built by `RoleBuilder.build()` is immutable under
the library's own operations: `toObject`, `toImmutable` and `valueOf`
assign no field of the receiver, so the post-state of each call is the
unchanged `Role`, every field included. -/
theorem role_methods_preserve_fields :
    ∀ r : Role,
      (r.toObjectM).2 = r ∧ (r.toImmutableM).2 = r ∧ (r.valueOfM).2 = r ∧
      (r.toObjectM).2.organizationId = r.organizationId ∧
      (r.toObjectM).2.principal = r.principal ∧
      (r.toObjectM).2.title = r.title ∧
      (r.toObjectM).2.description = r.description ∧
      (r.toObjectM).2.id = r.id ∧
      (r.toObjectM).2.aclKey = r.aclKey :=
  fun _ => ⟨rfl, rfl, rfl, rfl, rfl, rfl, rfl, rfl, rfl⟩

/-- **C10**: the optional-field setters ignore absent or empty input —
`undefined`, `null` or the empty string for `setDescription` and `setId`,
`undefined` or the empty array for `setAclKey` and `setPermissions` —
returning the builder with every field unchanged instead of throwing. -/
theorem optional_setters_ignore_empty :
    ∀ (b : RoleBuilder) (c : AccessCheckBuilder),
      b.setDescription .undef = .ok b ∧ b.setDescription .null = .ok b ∧
      b.setDescription (.str "") = .ok b ∧
      b.setId .undef = .ok b ∧ b.setId .null = .ok b ∧ b.setId (.str "") = .ok b ∧
      c.setAclKey none = .ok c ∧ c.setAclKey (some []) = .ok c ∧
      c.setPermissions none = .ok c ∧ c.setPermissions (some []) = .ok c :=
  fun _ _ => ⟨rfl, rfl, rfl, rfl, rfl, rfl, rfl, rfl, rfl, rfl⟩

end LoomApi

namespace LoomApi

/-- **C9**: round-trip: for a `Role` produced by `RoleBuilder.build()`
(from a builder whose set fields passed their setters' validation),
constructing a builder from its serialized form and rebuilding,
`(new RoleBuilder(r.toObject())).build()`, yields a Role whose
`toObject()` equals the original's field-for-field. -/
theorem role_toObject_roundtrip :
    ∀ (b : RoleBuilder) (r : Role),
      builderWF b = true → b.build = .ok r →
      ∃ (b2 : RoleBuilder) (r2 : Role),
        roleBuilderFromObject r.toObject = .ok b2 ∧
        b2.build = .ok r2 ∧
        r2.toObject = r.toObject := by
  intro b r hwf hb
  unfold builderWF at hwf
  simp only [Bool.and_eq_true] at hwf
  obtain ⟨⟨⟨⟨hd, hi⟩, ho⟩, ht⟩, hp⟩ := hwf
  unfold RoleBuilder.build at hb
  by_cases h1 : (!jsTruthyStr b.organizationId) = true
  · rw [if_pos h1] at hb; exact absurd hb (by simp)
  rw [if_neg h1] at hb
  by_cases h2 : b.principal.isNone = true
  · rw [if_pos h2] at hb; exact absurd hb (by simp)
  rw [if_neg h2] at hb
  by_cases h3 : (!jsTruthyStr b.title) = true
  · rw [if_pos h3] at hb; exact absurd hb (by simp)
  rw [if_neg h3] at hb
  rw [Except.ok.injEq] at hb
  rcases hbo : b.organizationId with _ | o
  · rw [hbo] at h1; exact absurd rfl h1
  rcases hbp : b.principal with _ | p
  · rw [hbp] at h2; exact absurd rfl h2
  rcases hbt : b.title with _ | t
  · rw [hbt] at h3; exact absurd rfl h3
  rw [hbo] at ho
  rw [hbp] at hp
  rw [hbt] at ht
  simp only [Option.all_some] at ho hp ht
  have ho2 : strEmpty o = false := isValidUUID_not_empty ho
  have ht2 : strEmpty t = false := by
    cases hs : strEmpty t
    · rfl
    · rw [hs] at ht; exact absurd ht (by decide)
  have hpp := hp
  unfold isValidPrincipal at hpp
  rw [Bool.and_eq_true] at hpp
  obtain ⟨hpt, hpi⟩ := hpp
  have hptm : p.type ∈ principalTypes := by simpa using hpt
  have hpi2 : strEmpty p.id = false := by
    cases hs : strEmpty p.id
    · rfl
    · rw [hs] at hpi; exact absurd hpi (by decide)
  rw [hbo, hbp, hbt] at hb
  simp only [Option.getD_some] at hb
  subst hb
  refine ⟨⟨b.description, b.id, some o, some p, some t⟩,
    roleCtor b.description b.id o p t, ?_, ?_, rfl⟩
  · rcases hbd : b.description with _ | d
    · rcases hbi : b.id with _ | i
      · simp [roleBuilderFromObject, Role.toObject, roleCtor, optToJS,
          RoleBuilder.setDescription, RoleBuilder.setId, RoleBuilder.setOrganizationId,
          RoleBuilder.setPrincipal, RoleBuilder.setTitle,
          PrincipalBuilder.setType, PrincipalBuilder.setId, PrincipalBuilder.build,
          Except.bind, isDefined, isEmptyString, isNonEmptyString, isValidUUIDVal,
          jsAsString, ho, ho2, ht2, hptm, hpi, hi, hd]
      · rw [hbi] at hi
        simp only [Option.all_some] at hi
        simp [roleBuilderFromObject, Role.toObject, roleCtor, optToJS,
          RoleBuilder.setDescription, RoleBuilder.setId, RoleBuilder.setOrganizationId,
          RoleBuilder.setPrincipal, RoleBuilder.setTitle,
          PrincipalBuilder.setType, PrincipalBuilder.setId, PrincipalBuilder.build,
          Except.bind, isDefined, isEmptyString, isNonEmptyString, isValidUUIDVal,
          jsAsString, ho, ho2, ht2, hptm, hpi, hi, isValidUUID_not_empty hi]
    · rw [hbd] at hd
      simp only [Option.all_some] at hd
      have hd2 : strEmpty d = false := by
        cases hs : strEmpty d
        · rfl
        · rw [hs] at hd; exact absurd hd (by decide)
      rcases hbi : b.id with _ | i
      · simp [roleBuilderFromObject, Role.toObject, roleCtor, optToJS,
          RoleBuilder.setDescription, RoleBuilder.setId, RoleBuilder.setOrganizationId,
          RoleBuilder.setPrincipal, RoleBuilder.setTitle,
          PrincipalBuilder.setType, PrincipalBuilder.setId, PrincipalBuilder.build,
          Except.bind, isDefined, isEmptyString, isNonEmptyString, isValidUUIDVal,
          jsAsString, ho, ho2, ht2, hptm, hpi, hd2]
      · rw [hbi] at hi
        simp only [Option.all_some] at hi
        simp [roleBuilderFromObject, Role.toObject, roleCtor, optToJS,
          RoleBuilder.setDescription, RoleBuilder.setId, RoleBuilder.setOrganizationId,
          RoleBuilder.setPrincipal, RoleBuilder.setTitle,
          PrincipalBuilder.setType, PrincipalBuilder.setId, PrincipalBuilder.build,
          Except.bind, isDefined, isEmptyString, isNonEmptyString, isValidUUIDVal,
          jsAsString, ho, ho2, ht2, hptm, hpi, hd2, hi, isValidUUID_not_empty hi]
  · simp [RoleBuilder.build, jsTruthyStr, ho2, ht2]

/-- Witness for C9: the round-trip exercised on the source's mock role. -/
theorem role_toObject_roundtrip_witness :
    ∃ (b2 : RoleBuilder) (r2 : Role),
      roleBuilderFromObject
        (roleCtor (some "MockOrgRoleDescription") (some uuidB) uuidA principalMock
          "MockOrgRoleTitle").toObject = .ok b2 ∧
      b2.build = .ok r2 ∧
      r2.toObject = (roleCtor (some "MockOrgRoleDescription") (some uuidB) uuidA principalMock
        "MockOrgRoleTitle").toObject :=
  role_toObject_roundtrip
    ⟨some "MockOrgRoleDescription", some uuidB, some uuidA, some principalMock,
      some "MockOrgRoleTitle"⟩
    (roleCtor (some "MockOrgRoleDescription") (some uuidB) uuidA principalMock
      "MockOrgRoleTitle")
    (by decide) rfl

end LoomApi
